import Mathlib

/-!
Verification development for an NHTSA vehicle-defect ETL pipeline.

The pipeline (a) ingests complaint and recall records with seen-set
deduplication and idempotent inserts (`etl/fetch_complaints_api.py`,
`etl/fetch_recalls.py`, `etl/fetch_complaints_ftp.py`,
`etl/load_postgres.py`), (b) recomputes derived risk tables
(`refresh_analytical_tables` in `etl/load_postgres.py`), and (c) raises a
change-detection alert over a hashed canonical payload
(`etl/critical_vehicle_alert.py`), orchestrated by `etl/run_etl.py`.

The embedding below models the relational tables as lists of records, the
network as an oracle of HTTP attempt outcomes, and the key-value /
alert-state stores as explicit state records.  Pure SQL expressions
(the risk CASE, NULLIF ratio, group counts) are translated directly.
-/

/-! ## SHA-256 (the `hashlib.sha256(...).hexdigest()` capability used by
`hash_payload`).  Words are `Nat` taken modulo `2^32`. -/

namespace SHA256

def M32 : Nat := 4294967296

def rotr (n x : Nat) : Nat := ((x >>> n) ||| (x <<< (32 - n))) % M32

def K : List Nat :=
  [1116352408, 1899447441, 3049323471, 3921009573, 961987163,
   1508970993, 2453635748, 2870763221, 3624381080, 310598401,
   607225278, 1426881987, 1925078388, 2162078206, 2614888103,
   3248222580, 3835390401, 4022224774, 264347078, 604807628,
   770255983, 1249150122, 1555081692, 1996064986, 2554220882,
   2821834349, 2952996808, 3210313671, 3336571891, 3584528711,
   113926993, 338241895, 666307205, 773529912, 1294757372,
   1396182291, 1695183700, 1986661051, 2177026350, 2456956037,
   2730485921, 2820302411, 3259730800, 3345764771, 3516065817,
   3600352804, 4094571909, 275423344, 430227734, 506948616,
   659060556, 883997877, 958139571, 1322822218, 1537002063,
   1747873779, 1955562222, 2024104815, 2227730452, 2361852424,
   2428436474, 2756734187, 3204031479, 3329325298]

def H0 : List Nat :=
  [1779033703, 3144134277, 1013904242, 2773480762,
   1359893119, 2600822924, 528734635, 1541459225]

def pad (msg : List Nat) : List Nat :=
  let len := msg.length
  let bitLen := len * 8
  let zeros := (64 - (len + 9) % 64) % 64
  msg ++ [0x80] ++ List.replicate zeros 0 ++
    ((List.range 8).map fun i => (bitLen >>> ((7 - i) * 8)) % 256)

def toWords : List Nat → List Nat
  | b0 :: b1 :: b2 :: b3 :: rest => (b0 <<< 24 + b1 <<< 16 + b2 <<< 8 + b3) :: toWords rest
  | _ => []

def schedule (w : List Nat) : Nat → List Nat
  | 0 => w
  | t + 1 =>
    let w' := schedule w t
    let g := fun i => w'.getD i 0
    let i := w'.length
    let s0 := (rotr 7 (g (i - 15))) ^^^ (rotr 18 (g (i - 15))) ^^^ ((g (i - 15)) >>> 3)
    let s1 := (rotr 17 (g (i - 2))) ^^^ (rotr 19 (g (i - 2))) ^^^ ((g (i - 2)) >>> 10)
    w' ++ [(g (i - 16) + s0 + g (i - 7) + s1) % M32]

def compressStep (w : List Nat) (st : List Nat) (t : Nat) : List Nat :=
  let a := st.getD 0 0; let b := st.getD 1 0; let c := st.getD 2 0; let d := st.getD 3 0
  let e := st.getD 4 0; let f := st.getD 5 0; let g := st.getD 6 0; let h := st.getD 7 0
  let S1 := (rotr 6 e) ^^^ (rotr 11 e) ^^^ (rotr 25 e)
  let ch := (e &&& f) ^^^ ((M32 - 1 - e) &&& g)
  let t1 := (h + S1 + ch + K.getD t 0 + w.getD t 0) % M32
  let S0 := (rotr 2 a) ^^^ (rotr 13 a) ^^^ (rotr 22 a)
  let mj := (a &&& b) ^^^ (a &&& c) ^^^ (b &&& c)
  let t2 := (S0 + mj) % M32
  [(t1 + t2) % M32, a, b, c, (d + t1) % M32, e, f, g]

def compressBlock (h : List Nat) (block : List Nat) : List Nat :=
  let w := schedule (toWords block) 48
  let st := (List.range 64).foldl (compressStep w) h
  List.zipWith (fun x y => (x + y) % M32) h st

def hexDigit (n : Nat) : Char :=
  if n < 10 then Char.ofNat (48 + n) else Char.ofNat (87 + n)

def wordHex (n : Nat) : List Char :=
  (List.range 8).map fun i => hexDigit ((n >>> ((7 - i) * 4)) % 16)

def sha256hex (s : String) : String :=
  let bytes := s.toUTF8.toList.map (fun b => b.toNat)
  let blocks := List.toChunks 64 (pad bytes)
  let hFinal := blocks.foldl compressBlock H0
  ⟨(hFinal.map wordHex).flatten⟩

end SHA256

/-! ## Raw records and the derived risk table
(`refresh_analytical_tables` in `etl/load_postgres.py`). -/

/-- A raw complaint row of `flat_cmpl`, restricted to the columns the risk
aggregation reads (`MAKETXT`, `MODELTXT`, `YEARTXT`; `CMPLID` is the identity
key). -/
structure RawComplaint where
  cmplid : String
  make : String
  model : String
  year : String
deriving DecidableEq

/-- A raw recall row of `flat_rcl`, restricted to the columns the risk
aggregation reads. -/
structure RawRecall where
  campno : String
  make : String
  model : String
  year : String
deriving DecidableEq

/-- A `(MAKETXT, MODELTXT, YEARTXT)` grouping key. -/
structure GroupKey where
  make : String
  model : String
  year : String
deriving DecidableEq

/-- A row of the per-group totals table `vehicle_risk_summary`. -/
structure SummaryRow where
  make : String
  model : String
  year : String
  total_complaints : Nat
  total_recalls : Nat
deriving DecidableEq

/-- A row of the derived table `vehicle_risk_scores`. -/
structure RiskRow where
  make : String
  model : String
  year : String
  total_complaints : Nat
  total_recalls : Nat
  risk_ratio : Option ℚ
  risk_category : String
deriving DecidableEq

/-- The `CASE` expression of `refresh_analytical_tables` (load_postgres.py
lines 67-72), branch by branch in source order. -/
def risk_category (total_complaints total_recalls : Nat) : String :=
  if total_recalls = 0 ∧ total_complaints > 500 then "CRITICAL"
  else if total_recalls = 0 ∧ total_complaints > 200 then "HIGH"
  else if total_complaints > total_recalls * 10 then "MEDIUM"
  else "LOW"

/-- Stated from the spec's words, for comparison with the source-derived
`risk_category`: "assign category by this exact precedence: recalls=0 AND
complaints>500 → CRITICAL; recalls=0 AND complaints>200 → HIGH;
complaints > recalls×10 → MEDIUM; else → LOW". -/
def categoryPrecedenceSpec (complaints recalls : Nat) : String :=
  if recalls = 0 ∧ complaints > 500 then "CRITICAL"
  else if recalls = 0 ∧ complaints > 200 then "HIGH"
  else if complaints > recalls * 10 then "MEDIUM"
  else "LOW"

/-- The `(total_complaints::FLOAT / NULLIF(total_recalls, 0))` expression:
`NULL` (here `none`) when recalls is zero, otherwise the quotient.  The SQL
FLOAT quotient is modelled as an exact rational. -/
def risk_ratio (total_complaints total_recalls : Nat) : Option ℚ :=
  if total_recalls = 0 then none
  else some ((total_complaints : ℚ) / (total_recalls : ℚ))

/-- Whether a raw complaint row belongs to a group. -/
def cmplInGroup (k : GroupKey) (c : RawComplaint) : Bool :=
  c.make == k.make && c.model == k.model && c.year == k.year

/-- Whether a raw recall row belongs to a group. -/
def rclInGroup (k : GroupKey) (r : RawRecall) : Bool :=
  r.make == k.make && r.model == k.model && r.year == k.year

/-- Total complaints of a `(make, model, year)` group. -/
def total_complaints (cmpl : List RawComplaint) (k : GroupKey) : Nat :=
  cmpl.countP (cmplInGroup k)

/-- Total recalls of a `(make, model, year)` group. -/
def total_recalls (rcl : List RawRecall) (k : GroupKey) : Nat :=
  rcl.countP (rclInGroup k)

/-- The distinct `(make, model, year)` keys occurring in the raw tables. -/
def summaryKeys (cmpl : List RawComplaint) (rcl : List RawRecall) : List GroupKey :=
  ((cmpl.map fun c => GroupKey.mk c.make c.model c.year) ++
    (rcl.map fun r => GroupKey.mk r.make r.model r.year)).dedup

/-- Modelled from the spec: the `vehicle_risk_summary` table read by
`refresh_analytical_tables` is built outside the repository sources; per the
spec it groups raw complaints and recalls by `(make, model, year)` with their
total complaint and recall counts. -/
def vehicle_risk_summary (cmpl : List RawComplaint) (rcl : List RawRecall) :
    List SummaryRow :=
  (summaryKeys cmpl rcl).map fun k =>
    ⟨k.make, k.model, k.year, total_complaints cmpl k, total_recalls rcl k⟩

/-- Lexicographic comparison of strings by code point, the order SQL's
`BETWEEN` uses on the all-ASCII `YEARTXT` values. -/
def lexLe : List Char → List Char → Bool
  | [], _ => true
  | _ :: _, [] => false
  | a :: as, b :: bs =>
    if a.toNat < b.toNat then true
    else if b.toNat < a.toNat then false
    else lexLe as bs

/-- String comparison used to model `YEARTXT BETWEEN '2020' AND '2024'`. -/
def strLe (a b : String) : Bool := lexLe a.data b.data

/-- The `WHERE YEARTXT BETWEEN '2020' AND '2024'` filter. -/
def yearInRange (y : String) : Bool := strLe "2020" y && strLe y "2024"

/-- The `CREATE TABLE vehicle_risk_scores AS SELECT ...` of
`refresh_analytical_tables` (load_postgres.py lines 60-77): one row per
summary row passing the year range and the `total_complaints > 50` floor,
with ratio and category computed per row.  The `ORDER BY total_complaints
DESC` presentation order is not modelled; no claim depends on row order. -/
def vehicle_risk_scores (cmpl : List RawComplaint) (rcl : List RawRecall) :
    List RiskRow :=
  ((vehicle_risk_summary cmpl rcl).filter fun s =>
      yearInRange s.year && decide (s.total_complaints > 50)).map fun s =>
    ⟨s.make, s.model, s.year, s.total_complaints, s.total_recalls,
      risk_ratio s.total_complaints s.total_recalls,
      risk_category s.total_complaints s.total_recalls⟩

/-! ## HTTP fetch (`fetch_complaints` in `etl/fetch_complaints_api.py`,
`fetch_recalls_for_vehicle` in `etl/fetch_recalls.py`).

The network is an oracle `Nat → HttpAttempt α`: the outcome the transport
would produce for the first, second, ... request issued for the vehicle. -/

/-- Outcome of one HTTP request: a response with a status code and parsed
`results` list, or a raised transport exception. -/
inductive HttpAttempt (α : Type) where
  | resp (status : Nat) (results : List α)
  | raise
deriving DecidableEq

/-- Whether a single attempt is a failure (transport error or non-200). -/
def attemptFails {α : Type} : HttpAttempt α → Bool
  | .resp status _ => status != 200
  | .raise => true

/-- A complaint record as returned by the complaints API. -/
structure ApiComplaint where
  odiNumber : String
  crash : Bool
  fire : Bool
  numberOfInjuries : Nat
  numberOfDeaths : Nat
  components : String
  summary : String
  dateComplaintFiled : String
deriving DecidableEq

/-- A recall record as returned by the recalls API.  The `.get(..., default)`
fallbacks of `insert_recalls` are not modelled: fields are taken as present. -/
structure ApiRecall where
  NHTSACampaignNumber : String
  Make : String
  Model : String
  ModelYear : String
  Component : String
  Summary : String
  ReportReceivedDate : String
  PotentialUnitsAffected : Nat
deriving DecidableEq

/-- `fetch_complaints` (fetch_complaints_api.py lines 25-41): one request; on
status 200 return the results, on any other status or exception return `[]`.
Exactly one attempt is made, so only `attempts 0` is consulted. -/
def fetch_complaints (attempts : Nat → HttpAttempt ApiComplaint) :
    List ApiComplaint :=
  match attempts 0 with
  | .resp status results => if status = 200 then results else []
  | .raise => []

/-- `fetch_recalls_for_vehicle` (fetch_recalls.py lines 54-71): one request;
on status 200 return the results, on non-200 or exception log and return
`[]`.  Exactly one attempt is made, so only `attempts 0` is consulted. -/
def fetch_recalls_for_vehicle (attempts : Nat → HttpAttempt ApiRecall) :
    List ApiRecall :=
  match attempts 0 with
  | .resp status results => if status = 200 then results else []
  | .raise => []

/-- Modelled from the spec: "a bounded retry count with fixed backoff applies
to recall-fetch requests" — a fetch that, after a failed attempt, waits the
fixed backoff and retries up to `retries` more times, returning `[]` only
when all attempts failed.  There is no such code in the repository; this
definition exists only to compare the spec's words with
`fetch_recalls_for_vehicle`. -/
def fetchRecallsRetrySpec (retries : Nat) (attempts : Nat → HttpAttempt ApiRecall)
    (i : Nat) : List ApiRecall :=
  match retries with
  | 0 =>
    match attempts i with
    | .resp status results => if status = 200 then results else []
    | .raise => []
  | k + 1 =>
    match attempts i with
    | .resp status results =>
      if status = 200 then results else fetchRecallsRetrySpec k attempts (i + 1)
    | .raise => fetchRecallsRetrySpec k attempts (i + 1)

/-! ## Idempotent inserts (`insert_recalls` in `etl/load_postgres.py`, the
bulk `INSERT ... WHERE NOT EXISTS` of `load_complaints`, and the
`ON CONFLICT DO NOTHING` load of `etl/fetch_complaints_ftp.py`). -/

/-- A stored row of `flat_cmpl`. -/
structure ComplaintRow where
  cmplid : String
  maketxt : String
  modeltxt : String
  yeartxt : String
  crash : String
  fire : String
  injured : Nat
  deaths : Nat
  compdesc : String
  cdescr : String
  ldate : String
deriving DecidableEq

/-- A stored row of `flat_rcl`. -/
structure RecallRow where
  campno : String
  maketxt : String
  modeltxt : String
  yeartxt : String
  compname : String
  desc_defect : String
  rcdate : String
  potaff : Nat
deriving DecidableEq

/-- Whether the table already holds a row with identity key `k`. -/
def hasKey {α : Type} (key : α → String) (table : List α) (k : String) : Bool :=
  table.any fun t => key t == k

/-- One guarded insert: `INSERT ... ON CONFLICT (key) DO NOTHING`, equally
the `INSERT ... SELECT ... WHERE NOT EXISTS (SELECT 1 ... WHERE key = ...)`
form — append the row unless its identity key is already present. -/
def insertNew {α : Type} (key : α → String) (table : List α) (r : α) : List α :=
  if hasKey key table (key r) then table else table ++ [r]

/-- Row-by-row guarded insertion of a whole payload, as the source's
per-row `cursor.execute` / `executemany` loops perform it. -/
def ingestAll {α : Type} (key : α → String) (table : List α) (payload : List α) :
    List α :=
  payload.foldl (insertNew key) table

/-- The `flat_rcl` row built by `insert_recalls` from an API recall record. -/
def recallRowOf (r : ApiRecall) : RecallRow :=
  ⟨r.NHTSACampaignNumber, r.Make, r.Model, r.ModelYear, r.Component,
    r.Summary, r.ReportReceivedDate, r.PotentialUnitsAffected⟩

/-- `insert_recalls` (load_postgres.py lines 12-51) as a table transform:
each recall is inserted with `ON CONFLICT (CAMPNO) DO NOTHING`. -/
def insert_recalls (table : List RecallRow) (recalls : List ApiRecall) :
    List RecallRow :=
  ingestAll RecallRow.campno table (recalls.map recallRowOf)

/-- The bulk insert step of `load_complaints` (fetch_complaints_api.py lines
106-117): every row is inserted guarded by
`WHERE NOT EXISTS (SELECT 1 FROM flat_cmpl WHERE cmplid = ...)`. -/
def insertComplaintRows (table : List ComplaintRow) (rows : List ComplaintRow) :
    List ComplaintRow :=
  ingestAll ComplaintRow.cmplid table rows

/-- `load_complaints_to_db` (fetch_complaints_ftp.py lines 31-66) as a table
transform: rows without an identity key are dropped (`dropna` on `CMPLID`,
modelled as an empty id), the rest inserted with
`ON CONFLICT (CMPLID) DO NOTHING`. -/
def load_complaints_to_db (table : List ComplaintRow) (rows : List ComplaintRow) :
    List ComplaintRow :=
  ingestAll ComplaintRow.cmplid table (rows.filter fun r => r.cmplid != "")

/-! ## The ingestion runs and the durable ETL state
(`load_complaints` in `etl/fetch_complaints_api.py`, `fetch_new_recalls` in
`etl/fetch_recalls.py`, sequenced by `etl/run_etl.py`). -/

/-- A target vehicle `(make, model, year)`. -/
structure Vehicle where
  make : String
  model : String
  year : String
deriving DecidableEq

/-- The durable stores: the `etl_state` key-value rows the code uses, plus
the two raw tables. -/
structure EtlState where
  seenOdis : List String
  seenCampnos : List String
  lastRecallFetch : Option String
  totalRecallsLoaded : Nat
  flat_cmpl : List ComplaintRow
  flat_rcl : List RecallRow
deriving DecidableEq

/-- The `flat_cmpl` row `load_complaints` appends for one API complaint of a
vehicle (fetch_complaints_api.py lines 83-95). -/
def mkComplaintRow (v : Vehicle) (c : ApiComplaint) : ComplaintRow :=
  ⟨c.odiNumber, v.make, v.model, v.year,
    if c.crash then "Y" else "N", if c.fire then "Y" else "N",
    c.numberOfInjuries, c.numberOfDeaths,
    c.components, c.summary, c.dateComplaintFiled⟩

/-- The inner `for c in complaints` loop of `load_complaints` (lines 78-97):
skip a complaint whose identifier is empty or already seen, otherwise append
its row and add the identifier to the seen-set. -/
def processComplaints (v : Vehicle) :
    List ApiComplaint → List String → List ComplaintRow × List String
  | [], seen => ([], seen)
  | c :: rest, seen =>
    if c.odiNumber = "" ∨ c.odiNumber ∈ seen then processComplaints v rest seen
    else
      (mkComplaintRow v c :: (processComplaints v rest (c.odiNumber :: seen)).1,
        (processComplaints v rest (c.odiNumber :: seen)).2)

/-- The outer per-vehicle loop of `load_complaints` (lines 72-97), threading
the in-memory seen-set across vehicles. -/
def collectComplaints (net : Vehicle → Nat → HttpAttempt ApiComplaint) :
    List Vehicle → List String → List ComplaintRow × List String
  | [], seen => ([], seen)
  | v :: rest, seen =>
    let p := processComplaints v (fetch_complaints (net v)) seen
    let c := collectComplaints net rest p.2
    (p.1 ++ c.1, c.2)

/-- `load_complaints` (fetch_complaints_api.py lines 46-124).  `vehicles` is
the target list the vehicle-selection query returned, `persistOk` whether the
bulk insert and commit succeed.  Returns the new durable state and whether
the run raised.  With no new rows the run returns early, before any write;
on persistence failure the transaction rolls back and the exception
propagates before `sm.set`, so neither table nor seen-set changes; only
after a successful commit is the seen-set written back. -/
def load_complaints (net : Vehicle → Nat → HttpAttempt ApiComplaint)
    (vehicles : List Vehicle) (persistOk : Bool) (st : EtlState) :
    EtlState × Bool :=
  let res := collectComplaints net vehicles st.seenOdis
  if res.1 = [] then (st, false)
  else if persistOk then
    ({st with flat_cmpl := insertComplaintRows st.flat_cmpl res.1, seenOdis := res.2}, false)
  else (st, true)

/-- The inner `for recall in recalls` loop of `fetch_new_recalls`
(fetch_recalls.py lines 92-100): skip a recall whose campaign number is empty
or already seen, otherwise collect it and add the campaign number. -/
def processRecalls :
    List ApiRecall → List String → List ApiRecall × List String
  | [], seen => ([], seen)
  | r :: rest, seen =>
    if r.NHTSACampaignNumber = "" ∨ r.NHTSACampaignNumber ∈ seen then
      processRecalls rest seen
    else
      (r :: (processRecalls rest (r.NHTSACampaignNumber :: seen)).1,
        (processRecalls rest (r.NHTSACampaignNumber :: seen)).2)

/-- The per-vehicle loop of `fetch_new_recalls` (lines 89-100). -/
def collectRecalls (net : Vehicle → Nat → HttpAttempt ApiRecall) :
    List Vehicle → List String → List ApiRecall × List String
  | [], seen => ([], seen)
  | v :: rest, seen =>
    let p := processRecalls (fetch_recalls_for_vehicle (net v)) seen
    let c := collectRecalls net rest p.2
    (p.1 ++ c.1, c.2)

/-- `fetch_new_recalls` (fetch_recalls.py lines 74-113): collect unseen
recalls for the tracked vehicles and, when any were found, immediately write
the updated seen-set, fetch date and counter back to the key-value state —
before any insert into `flat_rcl` has happened.  Returns the new state and
the list of new recalls. -/
def fetch_new_recalls (net : Vehicle → Nat → HttpAttempt ApiRecall)
    (vehicles : List Vehicle) (today : String) (st : EtlState) :
    EtlState × List ApiRecall :=
  let res := collectRecalls net vehicles st.seenCampnos
  if res.1 = [] then (st, [])
  else
    ({st with seenCampnos := res.2, lastRecallFetch := some today, totalRecallsLoaded := st.totalRecallsLoaded + res.1.length}, res.1)

/-- Steps 2-3 of `run_etl.main` (run_etl.py lines 16-22): `fetch_new_recalls`
followed by `insert_recalls`.  `persistOk` is whether the insert stage's
connection and commit succeed (per-row constraint violations are caught
inside `insert_recalls` and are not a stage failure). -/
def recallStage (net : Vehicle → Nat → HttpAttempt ApiRecall)
    (vehicles : List Vehicle) (today : String) (persistOk : Bool)
    (st : EtlState) : EtlState × Bool :=
  let res := fetch_new_recalls net vehicles today st
  if persistOk then
    ({res.1 with flat_rcl := insert_recalls res.1.flat_rcl res.2}, false)
  else (res.1, true)

/-! ## Alert engine (`etl/critical_vehicle_alert.py`). -/

/-- One tuple of the canonical alert payload:
`(make, model, year, value, category)`, all stringified as the f-string of
`hash_payload` renders them. -/
structure PayloadRow where
  make : String
  model : String
  year : String
  value : String
  category : String
deriving DecidableEq

/-- The f-string `f"{r[0]}-{r[1]}-{r[2]}-{r[3]}-{r[4]}"` of `hash_payload`. -/
def fmtRow (r : PayloadRow) : String :=
  r.make ++ "-" ++ r.model ++ "-" ++ r.year ++ "-" ++ r.value ++ "-" ++ r.category

/-- Python's `"|".join`. -/
def joinBar : List String → String
  | [] => ""
  | [s] => s
  | s :: rest => s ++ "|" ++ joinBar rest

/-- The `normalized` string of `hash_payload` (critical_vehicle_alert.py
lines 50-59): the ordered pipe-delimited concatenation of the formatted
tuples. -/
def normalizedPayload (rows : List PayloadRow) : String :=
  joinBar (rows.map fmtRow)

/-- `hash_payload`: the SHA-256 hex digest of the normalized payload. -/
def hash_payload (rows : List PayloadRow) : String :=
  SHA256.sha256hex (normalizedPayload rows)

/-- A row returned by one of the two selection queries of the alert
(`get_zero_recall_vehicles` / `get_ratio_critical_vehicles`): make, model,
year, and the metric value (complaint count or rounded ratio) as the string
the payload f-string renders. -/
structure VehRow where
  make : String
  model : String
  year : String
  value : String
deriving DecidableEq

/-- The environment of one alert run: the two query results, whether the
email credentials (`ALERT_EMAIL`, `ALERT_PASSWORD`, `ALERT_RECIPIENTS`) are
all set, and whether SMTP delivery would succeed. -/
structure AlertEnv where
  zero_recall : List VehRow
  ratio_risk : List VehRow
  credsPresent : Bool
  deliveryOk : Bool
deriving DecidableEq

/-- The `normalized_payload` list built in `main` (critical_vehicle_alert.py
lines 141-147): zero-recall rows tagged `ZERO_RECALL`, then ratio rows tagged
`RATIO_RISK`. -/
def alertPayload (env : AlertEnv) : List PayloadRow :=
  (env.zero_recall.map fun r => ⟨r.make, r.model, r.year, r.value, "ZERO_RECALL"⟩) ++
    (env.ratio_risk.map fun r => ⟨r.make, r.model, r.year, r.value, "RATIO_RISK"⟩)

/-- Observable outcome of one alert run: the stored digest afterwards, and
whether the run read the stored digest, sent an email, wrote the digest, or
raised. -/
structure AlertResult where
  finalHash : Option String
  readLast : Bool
  sent : Bool
  wrote : Bool
  raised : Bool
deriving DecidableEq

/-- `send_email` (critical_vehicle_alert.py lines 87-130): with any
credential missing, warn and return without sending (`some false`); with
credentials present, either deliver (`some true`) or raise out of the SMTP
block (`none`). -/
def send_email (env : AlertEnv) : Option Bool :=
  if !env.credsPresent then some false
  else if env.deliveryOk then some true
  else none

/-- `main` of the alert (critical_vehicle_alert.py lines 133-158): return at
once when both queries are empty; otherwise hash the payload, read the
stored digest, return when unchanged, else call `send_email` and — whenever
`send_email` returns rather than raises — `update_hash`. -/
def runAlert (env : AlertEnv) (stored : Option String) : AlertResult :=
  if env.zero_recall = [] ∧ env.ratio_risk = [] then
    ⟨stored, false, false, false, false⟩
  else
    let current := hash_payload (alertPayload env)
    if some current = stored then ⟨stored, true, false, false, false⟩
    else
      match send_email env with
      | some delivered => ⟨some current, true, delivered, true, false⟩
      | none => ⟨stored, true, false, false, true⟩

/-! ## Concrete inputs used by witnesses and counterexamples. -/

/-- The spec's two-complaint scenario: raw complaints
`{(Ford, F150, 2021, id=1), (Ford, F150, 2021, id=2)}`. -/
def fordF150TwoCmpl : List RawComplaint :=
  [⟨"1", "Ford", "F150", "2021"⟩, ⟨"2", "Ford", "F150", "2021"⟩]

/-- 51 raw complaints for (Ford, F150, 2021) with distinct two-digit ids —
enough to pass the `total_complaints > 50` floor. -/
def fordF150Cmpl51 : List RawComplaint :=
  (List.range 51).map fun i =>
    ⟨⟨[Char.ofNat (48 + i / 10), Char.ofNat (48 + i % 10)]⟩, "Ford", "F150", "2021"⟩

/-- The risk row the refresh derives from `fordF150Cmpl51` and no recalls. -/
def row51 : RiskRow := ⟨"Ford", "F150", "2021", 51, 0, none, "MEDIUM"⟩

/-- A zero-recall query row with 600 complaints. -/
def row600 : VehRow := ⟨"FORD", "F150", "2021", "600"⟩

/-- Alert environment: a non-empty critical set, email credentials absent. -/
def envNoCreds : AlertEnv := ⟨[row600], [], false, true⟩

/-- Alert environment: a non-empty critical set, credentials present, SMTP
delivery raising. -/
def envFailDel : AlertEnv := ⟨[row600], [], true, false⟩

/-- Alert environment: a non-empty critical set, credentials present,
delivery succeeding. -/
def envOk : AlertEnv := ⟨[row600], [], true, true⟩

/-- A sample recall record. -/
def sampleApiRecall : ApiRecall :=
  ⟨"21V001", "FORD", "F150", "2021", "BRAKES", "defect text", "2021-01-01", 1000⟩

/-- A recall network oracle that always answers 200 with `sampleApiRecall`. -/
def recallNet1 : Vehicle → Nat → HttpAttempt ApiRecall :=
  fun _ _ => .resp 200 [sampleApiRecall]

/-- A recall attempt oracle whose first attempt raises and whose later
attempts would succeed. -/
def retryOracle : Nat → HttpAttempt ApiRecall :=
  fun n => if n = 0 then .raise else .resp 200 [sampleApiRecall]

/-- A sample complaint record. -/
def sampleApiComplaint : ApiComplaint :=
  ⟨"ODI1", true, false, 1, 0, "BRAKES", "complaint text", "2021-02-03"⟩

/-- A complaint network oracle that always answers 200 with
`sampleApiComplaint`. -/
def cmplNet1 : Vehicle → Nat → HttpAttempt ApiComplaint :=
  fun _ _ => .resp 200 [sampleApiComplaint]

/-- A target vehicle. -/
def vFord : Vehicle := ⟨"FORD", "F150", "2021"⟩

/-- A second target vehicle. -/
def vToyota : Vehicle := ⟨"TOYOTA", "CAMRY", "2022"⟩

/-- A complaint network oracle failing for `vToyota` only. -/
def cmplNetToyotaDown : Vehicle → Nat → HttpAttempt ApiComplaint :=
  fun v _ => if v = vToyota then .raise else .resp 200 [sampleApiComplaint]

/-- A recall network oracle failing (HTTP 503) for `vToyota` only. -/
def rclNetToyotaDown : Vehicle → Nat → HttpAttempt ApiRecall :=
  fun v _ => if v = vToyota then .resp 503 [] else .resp 200 [sampleApiRecall]

/-- The empty durable state. -/
def st0 : EtlState := ⟨[], [], none, 0, [], []⟩

/-- Canonical-payload tuple `("A-B", "C", "Y", "1", "K")`: formats to
`"A-B-C-Y-1-K"`. -/
def t1 : PayloadRow := ⟨"A-B", "C", "Y", "1", "K"⟩

/-- Canonical-payload tuple `("A", "B-C", "Y", "1", "K")`: distinct from
`t1` but formats to the same `"A-B-C-Y-1-K"`. -/
def t2 : PayloadRow := ⟨"A", "B-C", "Y", "1", "K"⟩

/-- A single canonical-payload tuple with metric value `"1"`. -/
def pr1 : PayloadRow := ⟨"A", "B", "Y", "1", "K"⟩

/-! ## Helper strings for the `joinBar` decomposition. -/

/-- Concatenation of the strings each followed by `"|"`; the part of a
`"|".join` before a distinguished element. -/
def joinAllBar : List String → String
  | [] => ""
  | s :: t => s ++ "|" ++ joinAllBar t

/-- Concatenation of the strings each preceded by `"|"`; the part of a
`"|".join` after a distinguished element. -/
def joinSufBar : List String → String
  | [] => ""
  | s :: t => "|" ++ s ++ joinSufBar t

/-! ## Helper lemmas on guarded insertion. -/

theorem hasKey_append {α : Type} (key : α → String) (T1 T2 : List α) (k : String) :
    hasKey key (T1 ++ T2) k = (hasKey key T1 k || hasKey key T2 k) := by
  simp [hasKey, List.any_append]

theorem hasKey_insertNew_self {α : Type} (key : α → String) (T : List α) (r : α) :
    hasKey key (insertNew key T r) (key r) = true := by
  unfold insertNew
  by_cases h : hasKey key T (key r)
  · simp [h]
  · rw [if_neg h, hasKey_append]
    simp [hasKey]

theorem hasKey_insertNew_of {α : Type} (key : α → String) (T : List α) (r : α)
    (k : String) (h : hasKey key T k = true) :
    hasKey key (insertNew key T r) k = true := by
  unfold insertNew
  by_cases hp : hasKey key T (key r)
  · rw [if_pos hp]
    exact h
  · rw [if_neg hp, hasKey_append, h]
    rfl

theorem ingestAll_cons {α : Type} (key : α → String) (T : List α) (p : α)
    (ps : List α) :
    ingestAll key T (p :: ps) = ingestAll key (insertNew key T p) ps := rfl

theorem hasKey_ingestAll_of {α : Type} (key : α → String) (P : List α)
    (T : List α) (k : String) (h : hasKey key T k = true) :
    hasKey key (ingestAll key T P) k = true := by
  induction P generalizing T with
  | nil => exact h
  | cons p ps ih =>
    rw [ingestAll_cons]
    exact ih _ (hasKey_insertNew_of key T p k h)

theorem hasKey_ingestAll_of_mem {α : Type} (key : α → String) {P : List α}
    {r : α} (hm : r ∈ P) (T : List α) :
    hasKey key (ingestAll key T P) (key r) = true := by
  induction P generalizing T with
  | nil => cases hm
  | cons p ps ih =>
    rw [ingestAll_cons]
    rcases List.mem_cons.mp hm with rfl | hr
    · exact hasKey_ingestAll_of key ps _ _ (hasKey_insertNew_self key T r)
    · exact ih hr _

theorem insertNew_of_hasKey {α : Type} (key : α → String) (T : List α) (r : α)
    (h : hasKey key T (key r) = true) : insertNew key T r = T := by
  unfold insertNew
  simp [h]

theorem ingestAll_of_all_hasKey {α : Type} (key : α → String) (T : List α)
    (P : List α) (h : ∀ r ∈ P, hasKey key T (key r) = true) :
    ingestAll key T P = T := by
  induction P with
  | nil => rfl
  | cons p ps ih =>
    rw [ingestAll_cons, insertNew_of_hasKey key T p (h p (List.mem_cons_self p ps))]
    exact ih fun r hr => h r (List.mem_cons_of_mem p hr)

theorem ingestAll_idem {α : Type} (key : α → String) (T : List α) (P : List α) :
    ingestAll key (ingestAll key T P) P = ingestAll key T P :=
  ingestAll_of_all_hasKey key _ P fun _ hr => hasKey_ingestAll_of_mem key hr T

/-- C4: Ingestion is idempotent with respect to the stored tables: for every
source payload, ingesting it twice leaves the raw table exactly as ingesting
it once, in every insertion variant — `insert_recalls`
(`ON CONFLICT (CAMPNO) DO NOTHING`), the bulk `load_complaints` insert
(`WHERE NOT EXISTS ... cmplid`), and the flat-file load
(`ON CONFLICT (CMPLID) DO NOTHING`) — and a second guarded insert of a
record whose identity key already exists is a no-op, not an error. -/
theorem c4_ingestion_idempotent :
    (∀ (T : List RecallRow) (P : List ApiRecall),
      insert_recalls (insert_recalls T P) P = insert_recalls T P)
    ∧ (∀ (T : List ComplaintRow) (rows : List ComplaintRow),
      insertComplaintRows (insertComplaintRows T rows) rows = insertComplaintRows T rows)
    ∧ (∀ (T : List ComplaintRow) (rows : List ComplaintRow),
      load_complaints_to_db (load_complaints_to_db T rows) rows = load_complaints_to_db T rows)
    ∧ (∀ (α : Type) (key : α → String) (T : List α) (r : α),
      insertNew key (insertNew key T r) r = insertNew key T r) :=
  ⟨fun T P => ingestAll_idem RecallRow.campno T (P.map recallRowOf),
   fun T rows => ingestAll_idem ComplaintRow.cmplid T rows,
   fun T rows => ingestAll_idem ComplaintRow.cmplid T (rows.filter fun r => r.cmplid != ""),
   fun _ key T r => insertNew_of_hasKey key _ r (hasKey_insertNew_self key T r)⟩

/-- C1: The risk category assigned to a vehicle-year group is exactly the
first matching branch of the precedence rule (recalls=0 ∧ complaints>500 →
CRITICAL; recalls=0 ∧ complaints>200 → HIGH; complaints > recalls·10 →
MEDIUM; else LOW); it depends only on the pair of group totals, which are
invariant under reordering of the underlying raw rows; and the four spec
examples evaluate as stated. -/
theorem c1_risk_category_precedence :
    (∀ c r : Nat, risk_category c r = categoryPrecedenceSpec c r)
    ∧ (∀ (cmpl₁ cmpl₂ : List RawComplaint) (rcl₁ rcl₂ : List RawRecall)
        (k : GroupKey), cmpl₁.Perm cmpl₂ → rcl₁.Perm rcl₂ →
        risk_category (total_complaints cmpl₁ k) (total_recalls rcl₁ k)
          = risk_category (total_complaints cmpl₂ k) (total_recalls rcl₂ k))
    ∧ risk_category 600 0 = "CRITICAL" ∧ risk_category 250 0 = "HIGH"
    ∧ risk_category 1000 50 = "MEDIUM" ∧ risk_category 300 100 = "LOW" := by
  refine ⟨fun c r => rfl, ?_, by decide, by decide, by decide, by decide⟩
  intro cmpl₁ cmpl₂ rcl₁ rcl₂ k hc hr
  rw [total_complaints, total_complaints, total_recalls, total_recalls,
    hc.countP_eq, hr.countP_eq]

/-- Witness for C1 at a concrete input: the two-element complaint list for
the (Ford, F150, 2021) group in both orders, with no recalls. -/
theorem c1_witness :
    (fordF150TwoCmpl.Perm fordF150TwoCmpl.reverse)
    ∧ (([] : List RawRecall).Perm [])
    ∧ risk_category (total_complaints fordF150TwoCmpl ⟨"Ford", "F150", "2021"⟩)
        (total_recalls [] ⟨"Ford", "F150", "2021"⟩)
      = risk_category (total_complaints fordF150TwoCmpl.reverse ⟨"Ford", "F150", "2021"⟩)
        (total_recalls [] ⟨"Ford", "F150", "2021"⟩) := by
  refine ⟨fordF150TwoCmpl.reverse_perm.symm, List.Perm.refl [], ?_⟩
  exact c1_risk_category_precedence.2.1 fordF150TwoCmpl fordF150TwoCmpl.reverse
    [] [] ⟨"Ford", "F150", "2021"⟩ fordF150TwoCmpl.reverse_perm.symm (List.Perm.refl [])

/-- C10: When both selection queries come back empty, the alert `main`
returns at once: the stored digest is never read or compared, no email is
sent, and the stored alert-state digest is left unchanged — in particular a
transition from a previously non-empty critical set (any stored digest) to
an empty one produces no notification and no digest update. -/
theorem c10_empty_queries_no_effects :
    ∀ (credsPresent deliveryOk : Bool) (stored : Option String),
      runAlert ⟨[], [], credsPresent, deliveryOk⟩ stored
        = ⟨stored, false, false, false, false⟩ := by
  intro credsPresent deliveryOk stored
  simp [runAlert]

/-! ## Helper lemmas on the single-attempt fetchers. -/

theorem fetch_complaints_fail (a : Nat → HttpAttempt ApiComplaint)
    (h : attemptFails (a 0) = true) : fetch_complaints a = [] := by
  unfold fetch_complaints
  cases h0 : a 0 with
  | resp status results =>
    rw [h0] at h
    simp only [attemptFails, ne_eq, bne_iff_ne] at h
    simp [h]
  | raise => rfl

theorem fetch_recalls_fail (o : Nat → HttpAttempt ApiRecall)
    (h : attemptFails (o 0) = true) : fetch_recalls_for_vehicle o = [] := by
  unfold fetch_recalls_for_vehicle
  cases h0 : o 0 with
  | resp status results =>
    rw [h0] at h
    simp only [attemptFails, ne_eq, bne_iff_ne] at h
    simp [h]
  | raise => rfl

theorem collectComplaints_cons (net : Vehicle → Nat → HttpAttempt ApiComplaint)
    (v : Vehicle) (rest : List Vehicle) (seen : List String) :
    collectComplaints net (v :: rest) seen
      = ((processComplaints v (fetch_complaints (net v)) seen).1
          ++ (collectComplaints net rest (processComplaints v (fetch_complaints (net v)) seen).2).1,
        (collectComplaints net rest (processComplaints v (fetch_complaints (net v)) seen).2).2) := rfl

theorem collectRecalls_cons (net : Vehicle → Nat → HttpAttempt ApiRecall)
    (v : Vehicle) (rest : List Vehicle) (seen : List String) :
    collectRecalls net (v :: rest) seen
      = ((processRecalls (fetch_recalls_for_vehicle (net v)) seen).1
          ++ (collectRecalls net rest (processRecalls (fetch_recalls_for_vehicle (net v)) seen).2).1,
        (collectRecalls net rest (processRecalls (fetch_recalls_for_vehicle (net v)) seen).2).2) := rfl

theorem collectComplaints_skip_failed (net : Vehicle → Nat → HttpAttempt ApiComplaint)
    (pre suf : List Vehicle) (v : Vehicle) (seen : List String)
    (h : attemptFails (net v 0) = true) :
    collectComplaints net (pre ++ v :: suf) seen = collectComplaints net (pre ++ suf) seen := by
  induction pre generalizing seen with
  | nil =>
    rw [List.nil_append, List.nil_append, collectComplaints_cons,
      fetch_complaints_fail (net v) h]
    simp [processComplaints]
  | cons a pre ih =>
    rw [List.cons_append, List.cons_append, collectComplaints_cons,
      collectComplaints_cons, ih]

theorem collectRecalls_skip_failed (net : Vehicle → Nat → HttpAttempt ApiRecall)
    (pre suf : List Vehicle) (v : Vehicle) (seen : List String)
    (h : attemptFails (net v 0) = true) :
    collectRecalls net (pre ++ v :: suf) seen = collectRecalls net (pre ++ suf) seen := by
  induction pre generalizing seen with
  | nil =>
    rw [List.nil_append, List.nil_append, collectRecalls_cons,
      fetch_recalls_fail (net v) h]
    simp [processRecalls]
  | cons a pre ih =>
    rw [List.cons_append, List.cons_append, collectRecalls_cons,
      collectRecalls_cons, ih]

/-- C7 as amended: neither fetcher retries.  Both `fetch_recalls_for_vehicle`
and `fetch_complaints` are single-attempt and best-effort: their result
depends only on the first attempt's outcome, and a single failed attempt
(transport error or non-200 status) yields an empty result for that
vehicle. -/
theorem c7_no_retry_anywhere :
    (∀ o o' : Nat → HttpAttempt ApiRecall, o 0 = o' 0 →
      fetch_recalls_for_vehicle o = fetch_recalls_for_vehicle o')
    ∧ (∀ o : Nat → HttpAttempt ApiRecall, attemptFails (o 0) = true →
      fetch_recalls_for_vehicle o = [])
    ∧ (∀ a a' : Nat → HttpAttempt ApiComplaint, a 0 = a' 0 →
      fetch_complaints a = fetch_complaints a')
    ∧ (∀ a : Nat → HttpAttempt ApiComplaint, attemptFails (a 0) = true →
      fetch_complaints a = []) := by
  refine ⟨?_, fetch_recalls_fail, ?_, fetch_complaints_fail⟩
  · intro o o' h
    unfold fetch_recalls_for_vehicle
    rw [h]
  · intro a a' h
    unfold fetch_complaints
    rw [h]

/-- Witness for C7 at a concrete input: an oracle whose first attempt raises
and whose later attempts would succeed. -/
theorem c7_witness :
    (retryOracle 0 = retryOracle 0)
    ∧ (attemptFails (retryOracle 0) = true)
    ∧ fetch_recalls_for_vehicle retryOracle = [] := by
  refine ⟨rfl, by decide, ?_⟩
  exact c7_no_retry_anywhere.2.1 retryOracle (by decide)

/-- Counterexample to C7 as stated: the code does not retry recall-fetch
requests.  On an oracle whose first attempt raises and whose second attempt
would return a recall, `fetch_recalls_for_vehicle` returns `[]` (the vehicle
is skipped after the single attempt), while the spec's described
retry-with-backoff behaviour (modelled by `fetchRecallsRetrySpec`, one
retry) would return the recall. -/
theorem c7_counterexample :
    fetch_recalls_for_vehicle retryOracle = []
    ∧ retryOracle 1 = .resp 200 [sampleApiRecall]
    ∧ fetchRecallsRetrySpec 1 retryOracle 0 = [sampleApiRecall]
    ∧ fetchRecallsRetrySpec 1 retryOracle 0 ≠ fetch_recalls_for_vehicle retryOracle := by
  refine ⟨by decide, by decide, by decide, by decide⟩

/-- C8: Partial-failure containment.  If the fetch for one vehicle fails
(transport error or non-success status), the per-vehicle fetch returns `[]`
instead of raising, and the batch over the remaining vehicles proceeds
exactly as if the failed vehicle were absent — so every other vehicle's
records are still collected and ingested; likewise for the recall loop. -/
theorem c8_partial_failure_containment :
    (∀ (net : Vehicle → Nat → HttpAttempt ApiComplaint) (pre suf : List Vehicle)
      (v : Vehicle) (seen : List String), attemptFails (net v 0) = true →
      collectComplaints net (pre ++ v :: suf) seen = collectComplaints net (pre ++ suf) seen)
    ∧ (∀ (net : Vehicle → Nat → HttpAttempt ApiRecall) (pre suf : List Vehicle)
      (v : Vehicle) (seen : List String), attemptFails (net v 0) = true →
      collectRecalls net (pre ++ v :: suf) seen = collectRecalls net (pre ++ suf) seen)
    ∧ (∀ a : Nat → HttpAttempt ApiComplaint, attemptFails (a 0) = true →
      fetch_complaints a = [])
    ∧ (∀ o : Nat → HttpAttempt ApiRecall, attemptFails (o 0) = true →
      fetch_recalls_for_vehicle o = []) :=
  ⟨collectComplaints_skip_failed, collectRecalls_skip_failed,
    fetch_complaints_fail, fetch_recalls_fail⟩

/-- Witness for C8 at a concrete input: a two-vehicle batch where the
Toyota fetch raises; the Ford records are still collected. -/
theorem c8_witness :
    (attemptFails (cmplNetToyotaDown vToyota 0) = true)
    ∧ collectComplaints cmplNetToyotaDown [vFord, vToyota] []
        = collectComplaints cmplNetToyotaDown [vFord] []
    ∧ (attemptFails (rclNetToyotaDown vToyota 0) = true)
    ∧ collectRecalls rclNetToyotaDown [vFord, vToyota] []
        = collectRecalls rclNetToyotaDown [vFord] [] := by
  refine ⟨by decide, ?_, by decide, ?_⟩
  · exact c8_partial_failure_containment.1 cmplNetToyotaDown [vFord] [] vToyota [] (by decide)
  · exact c8_partial_failure_containment.2.1 rclNetToyotaDown [vFord] [] vToyota [] (by decide)

/-- C2 as amended: the digest is persisted exactly when execution gets past
`send_email` without an exception.  If delivery raises (credentials present,
SMTP failing) the stored digest is left unchanged and no notification is
recorded, so the next run re-detects the change; but if the required email
credentials are absent, `send_email` returns without delivering and `main`
persists the new digest anyway. -/
theorem c2_digest_persistence :
    ∀ (env : AlertEnv) (stored : Option String),
      (env.credsPresent = true → env.deliveryOk = false →
        (runAlert env stored).finalHash = stored
        ∧ (runAlert env stored).sent = false
        ∧ (runAlert env stored).wrote = false)
      ∧ (env.credsPresent = false →
        ¬(env.zero_recall = [] ∧ env.ratio_risk = []) →
        some (hash_payload (alertPayload env)) ≠ stored →
        (runAlert env stored).wrote = true
        ∧ (runAlert env stored).sent = false
        ∧ (runAlert env stored).finalHash = some (hash_payload (alertPayload env))) := by
  intro env stored
  constructor
  · intro hc hd
    by_cases hempty : env.zero_recall = [] ∧ env.ratio_risk = []
    · simp [runAlert, hempty]
    · by_cases hsame : some (hash_payload (alertPayload env)) = stored
      · simp [runAlert, hempty, hsame]
      · simp [runAlert, hempty, hsame, send_email, hc, hd]
  · intro hc hempty hsame
    simp [runAlert, hempty, hsame, send_email, hc]

/-- Witness for C2 (amended) at concrete inputs: a non-empty critical set
with failing delivery leaves the stored digest unchanged, and the same set
with credentials absent persists the digest without sending. -/
theorem c2_witness :
    ((runAlert envFailDel none).finalHash = none
      ∧ (runAlert envFailDel none).sent = false
      ∧ (runAlert envFailDel none).wrote = false)
    ∧ ((runAlert envNoCreds none).wrote = true
      ∧ (runAlert envNoCreds none).sent = false
      ∧ (runAlert envNoCreds none).finalHash = some (hash_payload (alertPayload envNoCreds))) :=
  ⟨(c2_digest_persistence envFailDel none).1 rfl rfl,
    (c2_digest_persistence envNoCreds none).2 rfl (by decide) (by decide)⟩

/-- Counterexample to C2 as stated: with a non-empty critical set, no stored
digest, and the email credentials absent, `send_email` returns without
delivering anything, yet `main` still persists the new digest — the stored
digest changes although no notification was delivered, so the next run will
not re-detect the change. -/
theorem c2_counterexample :
    (runAlert envNoCreds none).sent = false
    ∧ (runAlert envNoCreds none).wrote = true
    ∧ (runAlert envNoCreds none).finalHash ≠ none := by
  refine ⟨by decide, by decide, by decide⟩

/-- C5: Alert quiescence.  If a run completes without raising, then an
immediately following run over unchanged query results sends no email,
performs no alert-state write, and leaves the stored digest as the first
run left it; and whenever the computed digest already equals the stored
one, the run terminates with no side effects (no email, no state write). -/
theorem c5_alert_quiescence :
    (∀ (env : AlertEnv) (stored : Option String),
      (runAlert env stored).raised = false →
      (runAlert env (runAlert env stored).finalHash).sent = false
      ∧ (runAlert env (runAlert env stored).finalHash).wrote = false
      ∧ (runAlert env (runAlert env stored).finalHash).raised = false
      ∧ (runAlert env (runAlert env stored).finalHash).finalHash
          = (runAlert env stored).finalHash)
    ∧ (∀ (env : AlertEnv) (stored : Option String),
      some (hash_payload (alertPayload env)) = stored →
      (runAlert env stored).sent = false
      ∧ (runAlert env stored).wrote = false
      ∧ (runAlert env stored).finalHash = stored) := by
  constructor
  · intro env stored hraised
    by_cases hempty : env.zero_recall = [] ∧ env.ratio_risk = []
    · simp [runAlert, hempty]
    · by_cases hsame : some (hash_payload (alertPayload env)) = stored
      · simp [runAlert, hempty, hsame]
      · by_cases hc : env.credsPresent
        · by_cases hd : env.deliveryOk
          · simp [runAlert, hempty, hsame, send_email, hc, hd]
          · simp [runAlert, hempty, hsame, send_email, hc, hd] at hraised
        · simp [runAlert, hempty, hsame, send_email, hc]
  · intro env stored hsame
    by_cases hempty : env.zero_recall = [] ∧ env.ratio_risk = []
    · simp [runAlert, hempty]
    · simp [runAlert, hempty, hsame]

/-- Witness for C5 at concrete inputs: a successful first run from an empty
alert state, and a run whose stored digest already matches. -/
theorem c5_witness :
    ((runAlert envOk none).raised = false
      ∧ (runAlert envOk (runAlert envOk none).finalHash).sent = false
      ∧ (runAlert envOk (runAlert envOk none).finalHash).wrote = false)
    ∧ (some (hash_payload (alertPayload envOk))
        = some (hash_payload (alertPayload envOk))
      ∧ (runAlert envOk (some (hash_payload (alertPayload envOk)))).sent = false
      ∧ (runAlert envOk (some (hash_payload (alertPayload envOk)))).wrote = false) := by
  have h1 := c5_alert_quiescence.1 envOk none (by decide)
  have h2 := c5_alert_quiescence.2 envOk (some (hash_payload (alertPayload envOk))) rfl
  exact ⟨⟨by decide, h1.1, h1.2.1⟩, ⟨rfl, h2.1, h2.2.1⟩⟩

/-! ## Helper lemmas on seen-set provenance in `load_complaints`. -/

theorem processComplaints_seen_from (v : Vehicle) (cs : List ApiComplaint)
    (seen : List String) (odi : String)
    (h : odi ∈ (processComplaints v cs seen).2) :
    odi ∈ seen ∨ ∃ row ∈ (processComplaints v cs seen).1, row.cmplid = odi := by
  induction cs generalizing seen with
  | nil =>
    simp only [processComplaints] at h
    exact Or.inl h
  | cons c rest ih =>
    by_cases hskip : c.odiNumber = "" ∨ c.odiNumber ∈ seen
    · rw [processComplaints, if_pos hskip] at h ⊢
      exact ih seen h
    · rw [processComplaints, if_neg hskip] at h ⊢
      rcases ih (c.odiNumber :: seen) h with hin | ⟨row, hrow, hid⟩
      · rcases List.mem_cons.mp hin with rfl | hs
        · exact Or.inr ⟨mkComplaintRow v c, List.mem_cons_self _ _, rfl⟩
        · exact Or.inl hs
      · exact Or.inr ⟨row, List.mem_cons_of_mem _ hrow, hid⟩

theorem collectComplaints_seen_from (net : Vehicle → Nat → HttpAttempt ApiComplaint)
    (vehicles : List Vehicle) (seen : List String) (odi : String)
    (h : odi ∈ (collectComplaints net vehicles seen).2) :
    odi ∈ seen ∨ ∃ row ∈ (collectComplaints net vehicles seen).1, row.cmplid = odi := by
  induction vehicles generalizing seen with
  | nil =>
    simp only [collectComplaints] at h
    exact Or.inl h
  | cons v rest ih =>
    rw [collectComplaints_cons] at h ⊢
    rcases ih (processComplaints v (fetch_complaints (net v)) seen).2 h with hin | ⟨row, hrow, hid⟩
    · rcases processComplaints_seen_from v _ seen odi hin with hs | ⟨row, hrow, hid⟩
      · exact Or.inl hs
      · exact Or.inr ⟨row, List.mem_append_left _ hrow, hid⟩
    · exact Or.inr ⟨row, List.mem_append_right _ hrow, hid⟩

/-- C3 as amended: the complaints ingestion run satisfies the claim — an
identifier is added to the durable seen-set only in the same run step that
follows a successful persist, so every identifier newly present in the
stored seen-set has its record durably stored in `flat_cmpl`; when the bulk
insert or commit fails, neither the table nor the seen-set changes.  The
recall path violates the claim (see the counterexample): `fetch_new_recalls`
writes the updated campaign seen-set before `insert_recalls` runs, so a
persistence failure leaves identifiers in the stored seen-set with no
durable record. -/
theorem c3_seen_set_after_persist :
    ∀ (net : Vehicle → Nat → HttpAttempt ApiComplaint) (vehicles : List Vehicle)
      (persistOk : Bool) (st : EtlState) (odi : String),
      odi ∈ ((load_complaints net vehicles persistOk st).1).seenOdis →
      odi ∉ st.seenOdis →
      hasKey ComplaintRow.cmplid ((load_complaints net vehicles persistOk st).1).flat_cmpl odi
        = true := by
  intro net vehicles persistOk st odi hin hnew
  unfold load_complaints at hin ⊢
  by_cases hrows : (collectComplaints net vehicles st.seenOdis).1 = []
  · rw [if_pos hrows] at hin
    exact absurd hin hnew
  · rw [if_neg hrows] at hin ⊢
    cases persistOk with
    | false =>
      simp only [Bool.false_eq_true, if_false] at hin
      exact absurd hin hnew
    | true =>
      simp only [if_true] at hin ⊢
      rcases collectComplaints_seen_from net vehicles st.seenOdis odi hin with hs | ⟨row, hrow, hid⟩
      · exact absurd hs hnew
      · rw [← hid]
        exact hasKey_ingestAll_of_mem ComplaintRow.cmplid hrow st.flat_cmpl

/-- Witness for C3 (amended) at a concrete input: one vehicle, one new
complaint, successful persistence; the new identifier is in the stored
seen-set and its record is in the table. -/
theorem c3_witness :
    ("ODI1" ∈ ((load_complaints cmplNet1 [vFord] true st0).1).seenOdis
      ∧ "ODI1" ∉ st0.seenOdis)
    ∧ hasKey ComplaintRow.cmplid ((load_complaints cmplNet1 [vFord] true st0).1).flat_cmpl "ODI1"
        = true :=
  ⟨⟨by decide, by decide⟩,
    c3_seen_set_after_persist cmplNet1 [vFord] true st0 "ODI1" (by decide) (by decide)⟩

/-- Counterexample to C3 as stated: in the recall ingestion run,
`fetch_new_recalls` writes the updated seen-set to the key-value state
before `insert_recalls` persists anything.  With one new recall and a
failing insert stage, the run ends with campaign "21V001" in the stored
seen-set while `flat_rcl` holds no record for it — so on the next run the
recall is never re-fetched. -/
theorem c3_counterexample :
    "21V001" ∈ ((recallStage recallNet1 [vFord] "2025-06-01" false st0).1).seenCampnos
    ∧ ((recallStage recallNet1 [vFord] "2025-06-01" false st0).1).flat_rcl = []
    ∧ (recallStage recallNet1 [vFord] "2025-06-01" false st0).2 = true := by
  refine ⟨by decide, by decide, by decide⟩

/-- C6 as amended: for the spec's two-complaint (Ford, F150, 2021) scenario
with no recalls, the refresh produces no `vehicle_risk_scores` row at all —
the group's 2 complaints fail the `total_complaints > 50` volume floor; and
for every group with zero recalls that does appear, the risk-ratio
computation takes the `NULLIF` branch, producing `none` rather than ever
dividing by zero. -/
theorem c6_zero_recall_no_div :
    vehicle_risk_scores fordF150TwoCmpl [] = []
    ∧ (∀ (cmpl : List RawComplaint) (rcl : List RawRecall) (row : RiskRow),
      row ∈ vehicle_risk_scores cmpl rcl → row.total_recalls = 0 →
      row.risk_ratio = none)
    ∧ (∀ c : Nat, risk_ratio c 0 = none) := by
  refine ⟨by decide, ?_, fun c => rfl⟩
  intro cmpl rcl row hrow hzero
  simp only [vehicle_risk_scores, List.mem_map, List.mem_filter] at hrow
  obtain ⟨s, _, rfl⟩ := hrow
  simp only at hzero
  simp [hzero, risk_ratio]

/-- Witness for C6 (amended) at a concrete input: 51 complaints for
(Ford, F150, 2021) and no recalls pass the floor and yield a zero-recall row
whose ratio is `none`. -/
theorem c6_witness :
    (row51 ∈ vehicle_risk_scores fordF150Cmpl51 [] ∧ row51.total_recalls = 0)
    ∧ row51.risk_ratio = none :=
  ⟨⟨by decide, by decide⟩,
    c6_zero_recall_no_div.2.1 fordF150Cmpl51 [] row51 (by decide) (by decide)⟩

/-- Counterexample to C6 as stated: the refresh of the two-complaint
scenario produces no (Ford, F150, 2021) row — in particular none with
complaints=2, recalls=0 and category LOW — because the `WHERE
total_complaints > 50` floor excludes the group. -/
theorem c6_counterexample :
    ¬ ∃ row ∈ vehicle_risk_scores fordF150TwoCmpl [],
      row.make = "Ford" ∧ row.model = "F150" ∧ row.year = "2021"
      ∧ row.total_complaints = 2 ∧ row.total_recalls = 0
      ∧ row.risk_category = "LOW" := by
  decide

/-! ## Helper lemmas on the canonical payload string. -/

theorem joinBar_cons_ne (a : String) (l : List String) (h : l ≠ []) :
    joinBar (a :: l) = a ++ "|" ++ joinBar l := by
  cases l with
  | nil => exact absurd rfl h
  | cons b t => rfl

theorem joinBar_head_data (b : String) (C : List String) :
    (joinBar (b :: C)).data = b.data ++ (joinSufBar C).data := by
  induction C generalizing b with
  | nil => simp [joinBar, joinSufBar]
  | cons c t ih =>
    rw [joinBar_cons_ne b (c :: t) (by simp), joinSufBar]
    simp [String.data_append, ih c, List.append_assoc]

theorem joinBar_decomp (A : List String) (b : String) (C : List String) :
    (joinBar (A ++ b :: C)).data
      = (joinAllBar A).data ++ b.data ++ (joinSufBar C).data := by
  induction A with
  | nil => simp [joinAllBar, joinBar_head_data]
  | cons a as ih =>
    rw [List.cons_append, joinBar_cons_ne a (as ++ b :: C) (by simp), joinAllBar]
    simp [String.data_append, ih, List.append_assoc]

/-- C9 as amended: changing any single tuple's metric value always changes
the canonical pipe-delimited payload string (so the digest changes whenever
SHA-256 maps the two distinct payload strings apart), and the digest is a
function of the ordered pipe-delimited concatenation of the tuples.
Reordering distinct tuples, however, need not change the digest: tuples that
differ can format to the same dash-joined string (see the counterexample),
so order sensitivity holds only at the formatted-string level, not for
arbitrary distinct tuples. -/
theorem c9_payload_sensitivity :
    (∀ (pre suf : List PayloadRow) (r : PayloadRow) (v' : String),
      v' ≠ r.value →
      normalizedPayload (pre ++ ⟨r.make, r.model, r.year, v', r.category⟩ :: suf)
        ≠ normalizedPayload (pre ++ r :: suf))
    ∧ (∀ rows₁ rows₂ : List PayloadRow,
      normalizedPayload rows₁ = normalizedPayload rows₂ →
      hash_payload rows₁ = hash_payload rows₂) := by
  constructor
  · intro pre suf r v' hv heq
    have h0 := congrArg String.data heq
    simp only [normalizedPayload, List.map_append, List.map_cons, joinBar_decomp,
      fmtRow, String.data_append, List.append_assoc] at h0
    have h1 := List.append_cancel_left h0
    have h2 := List.append_cancel_left h1
    have h3 := List.append_cancel_left h2
    have h4 := List.append_cancel_left h3
    have h5 := List.append_cancel_left h4
    have h6 := List.append_cancel_left h5
    have h7 := List.append_cancel_left h6
    exact hv (String.ext (List.append_cancel_right h7))
  · intro rows₁ rows₂ h
    exact congrArg SHA256.sha256hex h

/-- Witness for C9 (amended) at concrete inputs: changing the metric value
"1" to "2" in a one-tuple payload changes the canonical string, and two
payloads with equal canonical strings hash identically. -/
theorem c9_witness :
    (("2" : String) ≠ "1")
    ∧ normalizedPayload [⟨"A", "B", "Y", "2", "K"⟩] ≠ normalizedPayload [pr1]
    ∧ (normalizedPayload [t1, t2] = normalizedPayload [t2, t1])
    ∧ hash_payload [t1, t2] = hash_payload [t2, t1] :=
  ⟨by decide,
    c9_payload_sensitivity.1 [] [] pr1 "2" (by decide),
    rfl,
    c9_payload_sensitivity.2 [t1, t2] [t2, t1] rfl⟩

/-- Counterexample to C9 as stated: reordering a sequence of distinct tuples
does not always change the digest.  `t1 = ("A-B", "C", "Y", "1", "K")` and
`t2 = ("A", "B-C", "Y", "1", "K")` are distinct tuples, yet both format to
`"A-B-C-Y-1-K"`, so the two orderings produce the same canonical string and
hence the same SHA-256 digest. -/
theorem c9_counterexample :
    t1 ≠ t2
    ∧ [t1, t2] ≠ [t2, t1]
    ∧ List.Perm [t1, t2] [t2, t1]
    ∧ normalizedPayload [t1, t2] = normalizedPayload [t2, t1]
    ∧ hash_payload [t1, t2] = hash_payload [t2, t1] :=
  ⟨by decide, by decide, List.Perm.swap t2 t1 [], rfl,
    congrArg SHA256.sha256hex
      (rfl : normalizedPayload [t1, t2] = normalizedPayload [t2, t1])⟩
